import Mathlib

/-!
Shallow embedding of the container-layout core of the typesetting engine
(`src/library/src/layout/container.rs`): the `BoxNode` and `BlockNode`
components and the `Sizing` model, together with the supporting value types
(`Rel`, `Smart`, `Axes`, `Sides`, `Corners`, `Regions`, `Frame`, `Fragment`)
that the two layout functions depend on.  Lengths are modelled as exact
rationals, so contextual unit resolution (em to absolute) is the identity and
the style chain is represented by its already-resolved view.
-/

namespace Container

/-- An absolute length, modelled as an exact rational. -/
abbrev Length : Type := ℚ

/-- A length relative to a base: `rel * base + abs`.  Mirrors `Rel<Length>`
with the ratio component stored as a plain rational. -/
structure Rel where
  rel : ℚ
  abs : Length
deriving DecidableEq

/-- The zero relative length. -/
def Rel.zero : Rel := { rel := 0, abs := 0 }

/-- Modelled from the spec: whether both components of a relative length are
zero (`Rel::is_zero`, declared outside the source excerpt). -/
def Rel.is_zero (r : Rel) : Bool :=
  decide (r.rel = 0) && decide (r.abs = 0)

/-- Modelled from the spec: evaluation of a relative length against a base
size (`Rel::relative_to`): `ratio * base + offset`. -/
def Rel.relative_to (r : Rel) (whole : Length) : Length :=
  r.rel * whole + r.abs

/-- A value that can be `Auto` or a custom value (`Smart<T>`). -/
inductive Smart (α : Type) where
  | auto
  | custom (v : α)
deriving DecidableEq

/-- Whether the value is `Auto`. -/
def Smart.is_auto {α : Type} : Smart α → Bool
  | Smart.auto => true
  | Smart.custom _ => false

/-- Map over the custom value. -/
def Smart.map {α β : Type} (f : α → β) : Smart α → Smart β
  | Smart.auto => Smart.auto
  | Smart.custom v => Smart.custom (f v)

/-- Extract the custom value or fall back to a default. -/
def Smart.unwrap_or {α : Type} : Smart α → α → α
  | Smart.auto, d => d
  | Smart.custom v, _ => v

/-- A pair of values, one per axis (`Axes<T>`). -/
structure Axes (α : Type) where
  x : α
  y : α
deriving DecidableEq

/-- Construct from components (`Axes::new`). -/
def Axes.new {α : Type} (x y : α) : Axes α := { x := x, y := y }

/-- Componentwise map. -/
def Axes.map {α β : Type} (a : Axes α) (f : α → β) : Axes β :=
  { x := f a.x, y := f a.y }

/-- Componentwise pairing. -/
def Axes.zip {α β : Type} (a : Axes α) (b : Axes β) : Axes (α × β) :=
  { x := (a.x, b.x), y := (a.y, b.y) }

/-- Modelled from the spec: per-axis fallback for `Axes<Smart<T>>`
(`unwrap_or`): an `Auto` axis falls back to the other descriptor's value for
that axis. -/
def Axes.unwrap_or {α : Type} (a : Axes (Smart α)) (d : Axes α) : Axes α :=
  { x := a.x.unwrap_or d.x, y := a.y.unwrap_or d.y }

/-- Componentwise boolean or (the `|` operator on `Axes<bool>`). -/
def Axes.or (a b : Axes Bool) : Axes Bool :=
  { x := a.x || b.x, y := a.y || b.y }

/-- Componentwise boolean negation (the `!` operator on `Axes<bool>`). -/
def Axes.not (a : Axes Bool) : Axes Bool :=
  { x := !a.x, y := !a.y }

/-- A two-dimensional size. -/
abbrev Size : Type := Axes Length

/-- A value per side (`Sides<T>`). -/
structure Sides (α : Type) where
  left : α
  top : α
  right : α
  bottom : α
deriving DecidableEq

/-- The same value on every side (`Sides::splat`). -/
def Sides.splat {α : Type} (v : α) : Sides α :=
  { left := v, top := v, right := v, bottom := v }

/-- Per-side map. -/
def Sides.map {α β : Type} (s : Sides α) (f : α → β) : Sides β :=
  { left := f s.left, top := f s.top, right := f s.right, bottom := f s.bottom }

/-- The four side values as a list (`Sides::iter`). -/
def Sides.iter {α : Type} (s : Sides α) : List α :=
  [s.left, s.top, s.right, s.bottom]

/-- A value per corner (`Corners<T>`). -/
structure Corners (α : Type) where
  top_left : α
  top_right : α
  bottom_right : α
  bottom_left : α
deriving DecidableEq

/-- The same value on every corner (`Corners::splat`). -/
def Corners.splat {α : Type} (v : α) : Corners α :=
  { top_left := v, top_right := v, bottom_right := v, bottom_left := v }

/-- An opaque paint value. -/
structure Paint where
  color : Nat
deriving DecidableEq

/-- A fully specified stroke. -/
structure Stroke where
  paint : Paint
  thickness : Length
deriving DecidableEq

/-- A stroke with optional components. -/
structure PartialStroke where
  paint : Option Paint
  thickness : Option Length
deriving DecidableEq

/-- Modelled from the spec: complete a partially specified stroke with
defaults (`PartialStroke::unwrap_or_default`). -/
def PartialStroke.unwrap_or_default (s : PartialStroke) : Stroke :=
  { paint := s.paint.getD { color := 0 }, thickness := s.thickness.getD 1 }

/-- The resolved view of the style chain as read by the two container
components: each field is the result of `styles.get(PROP)` for the property
with the declared resolve/fold mode already applied. -/
structure Styles where
  baseline : Rel
  fill : Option Paint
  stroke : Sides (Option PartialStroke)
  radius : Corners Rel
  inset : Sides Rel
  outset : Sides Rel
deriving DecidableEq

/-- One element of a frame: an opaque drawing element produced by content
layout, a prepended fill/stroke decoration shape, or attached metadata. -/
inductive FrameItem where
  | elem (id : Nat)
  | shape (fill : Option Paint) (stroke : Sides (Option Stroke))
      (outset : Sides Rel) (radius : Corners Rel)
  | meta (styles : Styles)
deriving DecidableEq

/-- A laid-out frame: a size, an optional explicit baseline (absent means the
baseline sits at the bottom edge), and the drawing elements. -/
structure Frame where
  size : Size
  baselineOpt : Option Length
  items : List FrameItem
deriving DecidableEq

/-- The frame's height. -/
def Frame.height (f : Frame) : Length := f.size.y

/-- Modelled from the spec: the frame's baseline as an offset from its top
edge; when no baseline was set explicitly it is the bottom edge. -/
def Frame.baseline (f : Frame) : Length :=
  f.baselineOpt.getD f.size.y

/-- Overwrite the frame's baseline (`Frame::set_baseline`). -/
def Frame.set_baseline (f : Frame) (b : Length) : Frame :=
  { f with baselineOpt := some b }

/-- Modelled from the spec: prepend a fill/stroke decoration shape sized by
the frame's box extended by the outset and rounded by the radius
(`Frame::fill_and_stroke`); the frame's size and baseline are untouched. -/
def Frame.fill_and_stroke (f : Frame) (fill : Option Paint)
    (stroke : Sides (Option Stroke)) (outset : Sides Rel)
    (radius : Corners Rel) : Frame :=
  { f with items := FrameItem.shape fill stroke outset radius :: f.items }

/-- Modelled from the spec: attach the current style context as frame
metadata (`Frame::meta`). -/
def Frame.meta (f : Frame) (styles : Styles) : Frame :=
  { f with items := FrameItem.meta styles :: f.items }

/-- A layout failure: either a failure raised by the wrapped content's own
layout call, or the non-recoverable internal contract violation raised when a
box receives a number of frames different from one. -/
inductive LayoutError where
  | user (id : Nat)
  | regionCountMismatch (count : Nat)
deriving DecidableEq

/-- The output of a layout call: one frame per consumed region. -/
structure Fragment where
  frames : List Frame
deriving DecidableEq

/-- A fragment of exactly one frame (`Fragment::frame`). -/
def Fragment.frame (f : Frame) : Fragment := { frames := [f] }

/-- A fragment from a list of frames (`Fragment::frames`). -/
def Fragment.ofFrames (fs : List Frame) : Fragment := { frames := fs }

/-- Extract all frames (`Fragment::into_frames`). -/
def Fragment.into_frames (frag : Fragment) : List Frame := frag.frames

/-- Modelled from the spec: extract the single frame of a fragment
(`Fragment::into_frame`, declared outside the source excerpt).  A fragment
holding a number of frames different from the contractually required one is
rejected as a non-recoverable contract violation, never silently
truncated. -/
def Fragment.into_frame (frag : Fragment) : Except LayoutError Frame :=
  match frag.frames with
  | [f] => Except.ok f
  | other => Except.error (LayoutError.regionCountMismatch other.length)

/-- Modelled from the spec: a region descriptor — the current region's size,
a base size used as the reference for relative-length resolution, the sizes
of the following candidate regions, and the per-axis expand flags. -/
structure Regions where
  size : Size
  base : Size
  backlog : List Size
  expand : Axes Bool
deriving DecidableEq

/-- Modelled from the spec: a single-region descriptor whose base equals its
size (`Regions::one`). -/
def Regions.one (size : Size) (expand : Axes Bool) : Regions :=
  { size := size, base := size, backlog := [], expand := expand }

/-- A content node as seen by the container core: an opaque leaf carrying its
layout capability, or a padding wrap around another content node. -/
inductive Content where
  | leaf (cap : Styles → Regions → Except LayoutError Fragment)
  | padded_node (inset : Sides Rel) (child : Content)

/-- Wrap content in a padding transform; returns a new content value, the
original is untouched (`Content::padded`). -/
def Content.padded (c : Content) (inset : Sides Rel) : Content :=
  Content.padded_node inset c

/-- Modelled from the spec: shrink a size by the absolute inset on both
axes (part of the padding transform delegated to an external collaborator
that is not in the source excerpt). -/
def padShrink (inset : Sides Rel) (sz : Size) : Size :=
  Axes.new (sz.x - inset.left.relative_to sz.x - inset.right.relative_to sz.x)
    (sz.y - inset.top.relative_to sz.y - inset.bottom.relative_to sz.y)

/-- Modelled from the spec: grow a frame size back by the absolute inset
(part of the padding transform delegated to an external collaborator). -/
def padGrow (inset : Sides Rel) (sz : Size) : Size :=
  Axes.new (sz.x + inset.left.relative_to sz.x + inset.right.relative_to sz.x)
    (sz.y + inset.top.relative_to sz.y + inset.bottom.relative_to sz.y)

/-- The content layout capability.  A leaf applies its own capability;
a padding wrap is modelled from the spec: every region is shrunk by the
inset before laying out the inner content and every produced frame is grown
back. -/
def Content.layout : Content → Styles → Regions → Except LayoutError Fragment
  | Content.leaf cap, styles, regions => cap styles regions
  | Content.padded_node inset c, styles, regions =>
    match Content.layout c styles
        { size := padShrink inset regions.size
          base := padShrink inset regions.base
          backlog := regions.backlog.map (padShrink inset)
          expand := regions.expand } with
    | Except.error e => Except.error e
    | Except.ok frag =>
      Except.ok (Fragment.ofFrames (frag.frames.map (fun f =>
        { f with size := padGrow inset f.size })))

/-- How to size an axis: fit the contents, a size relative to the parent, or
a fraction of the remaining free space (`Sizing`). -/
inductive Sizing where
  | auto
  | rel (r : Rel)
  | fr (f : ℚ)
deriving DecidableEq

/-- Whether this is fractional sizing (`Sizing::is_fractional`). -/
def Sizing.is_fractional : Sizing → Bool
  | Sizing.fr _ => true
  | _ => false

/-- An inline-level container that sizes content (`BoxNode`). -/
structure BoxNode where
  body : Content
  width : Sizing
  height : Smart Rel

/-- A block-level container (`BlockNode`). -/
structure BlockNode where
  body : Content

/-- The stroke as prepared by both layout functions:
`styles.get(STROKE).map(|s| s.map(PartialStroke::unwrap_or_default))`. -/
def Styles.strokeResolved (styles : Styles) : Sides (Option Stroke) :=
  styles.stroke.map (fun s => s.map PartialStroke.unwrap_or_default)

/-- The decoration guard of both layout functions:
`fill.is_some() || stroke.iter().any(Option::is_some)`. -/
def Styles.hasDeco (styles : Styles) : Bool :=
  styles.fill.isSome || styles.strokeResolved.iter.any Option.isSome

/-- The box's per-axis sizing after degrading a fractional width to a full
ratio (lines 122-129 of `BoxNode::layout`). -/
def BoxNode.sizing (node : BoxNode) : Axes (Smart Rel) :=
  let width : Smart Rel :=
    match node.width with
    | Sizing.auto => Smart.auto
    | Sizing.rel rel => Smart.custom rel
    | Sizing.fr _ => Smart.custom { rel := 1, abs := 0 }
  Axes.new width node.height

/-- Resolution of the box's sizing to a concrete size (lines 130-134 of
`BoxNode::layout`): each relative axis is evaluated against the region's base
size and an auto axis falls back to the region's own size. -/
def BoxNode.resolvedSize (node : BoxNode) (regions : Regions) : Size :=
  ((node.sizing.zip regions.base).map
    (fun sb => sb.1.map (fun v => v.relative_to sb.2))).unwrap_or regions.size

/-- The child laid out by the box: the body, wrapped in a padding transform
exactly when some inset side is non-zero (lines 136-141 of
`BoxNode::layout`). -/
def BoxNode.child (node : BoxNode) (styles : Styles) : Content :=
  if styles.inset.iter.any (fun v => !v.is_zero) then
    node.body.padded styles.inset
  else node.body

/-- The single-region child descriptor of the box (lines 144-147 of
`BoxNode::layout`): size is the resolved size and each axis expands when the
caller expands it or the axis is not automatically sized. -/
def BoxNode.pod (node : BoxNode) (regions : Regions) : Regions :=
  let is_auto := node.sizing.map Smart.is_auto
  Regions.one (node.resolvedSize regions) (regions.expand.or is_auto.not)

/-- The baseline-shift step of the box pipeline (lines 150-154 of
`BoxNode::layout`): the resolved baseline style, evaluated against the
frame's height, is subtracted from the baseline when non-zero. -/
def boxShifted (styles : Styles) (frame : Frame) : Frame :=
  let shift := styles.baseline.relative_to frame.height
  if shift ≠ 0 then frame.set_baseline (frame.baseline - shift) else frame

/-- The post-layout pipeline of the box (lines 150-170 of `BoxNode::layout`):
baseline shift, then fill/stroke decoration when the guard holds, then
metadata. -/
def boxPost (styles : Styles) (frame : Frame) : Frame :=
  let fr1 := boxShifted styles frame
  let fr2 :=
    if styles.hasDeco then
      fr1.fill_and_stroke styles.fill styles.strokeResolved styles.outset
        styles.radius
    else fr1
  fr2.meta styles

/-- `BoxNode::layout` (lines 116-173): resolve the sizing, wrap the body when
inset, lay the child out in the single-region descriptor, require exactly one
frame back, and run the decoration pipeline. -/
def BoxNode.layout (node : BoxNode) (styles : Styles) (regions : Regions) :
    Except LayoutError Fragment :=
  match (node.child styles).layout styles (node.pod regions) with
  | Except.error e => Except.error e
  | Except.ok frag =>
    match frag.into_frame with
    | Except.error e => Except.error e
    | Except.ok frame => Except.ok (Fragment.frame (boxPost styles frame))

/-- The child laid out by the block: the body, wrapped in a padding transform
exactly when some inset side is non-zero (lines 311-316 of
`BlockNode::layout`). -/
def BlockNode.child (node : BlockNode) (styles : Styles) : Content :=
  if styles.inset.iter.any (fun v => !v.is_zero) then
    node.body.padded styles.inset
  else node.body

/-- `BlockNode::layout` (lines 304-343): wrap the body when inset, lay the
child out with the unmodified multi-region descriptor, decorate every
returned frame when the guard holds, and attach metadata to every frame. -/
def BlockNode.layout (node : BlockNode) (styles : Styles) (regions : Regions) :
    Except LayoutError Fragment :=
  match (node.child styles).layout styles regions with
  | Except.error e => Except.error e
  | Except.ok frag =>
    let frames := frag.into_frames
    let frames :=
      if styles.hasDeco then
        frames.map (fun f =>
          f.fill_and_stroke styles.fill styles.strokeResolved styles.outset
            styles.radius)
      else frames
    let frames := frames.map (fun f => f.meta styles)
    Except.ok (Fragment.ofFrames frames)

/-- A style context with every property at its default value. -/
def stylesPlain : Styles :=
  { baseline := Rel.zero, fill := none, stroke := Sides.splat none
    radius := Corners.splat Rel.zero, inset := Sides.splat Rel.zero
    outset := Sides.splat Rel.zero }

/-- A style context with a solid fill set. -/
def stylesFill : Styles := { stylesPlain with fill := some { color := 1 } }

/-- A style context with a baseline shift of a quarter of the height. -/
def stylesShift : Styles :=
  { stylesPlain with baseline := { rel := 1 / 4, abs := 0 } }

/-- A sample content frame of natural size 50 by 20. -/
def frameA : Frame :=
  { size := Axes.new 50 20, baselineOpt := none, items := [FrameItem.elem 0] }

/-- A second sample content frame with an explicit baseline. -/
def frameB : Frame :=
  { size := Axes.new 60 30, baselineOpt := some 25, items := [FrameItem.elem 1] }

/-- Content whose layout capability always returns the given frames. -/
def contentFixed (frames : List Frame) : Content :=
  Content.leaf (fun _ _ => Except.ok (Fragment.ofFrames frames))

/-- Content whose layout capability always fails with the given error. -/
def contentFail (e : LayoutError) : Content :=
  Content.leaf (fun _ _ => Except.error e)

/-- A single 200 by 100 region with ambient expand off. -/
def regions200 : Regions :=
  { size := Axes.new 200 100, base := Axes.new 200 100, backlog := []
    expand := Axes.new false false }

/-- A region whose base size differs from its own size. -/
def regionsC1 : Regions :=
  { size := Axes.new 150 90, base := Axes.new 200 100, backlog := []
    expand := Axes.new false false }

/-- A sample relative width of half the base plus ten. -/
def relC1 : Rel := { rel := 1 / 2, abs := 10 }

/-- A box with relative width and relative height. -/
def boxRelHalf : BoxNode :=
  { body := contentFixed [frameA], width := Sizing.rel relC1
    height := Smart.custom { rel := 0, abs := 30 } }

/-- A box with a fractional width. -/
def boxFr : BoxNode :=
  { body := contentFixed [frameA], width := Sizing.fr 2, height := Smart.auto }

/-- A box with width `Relative(1, 0)` and automatic height. -/
def boxFull : BoxNode :=
  { body := contentFixed [frameA], width := Sizing.rel { rel := 1, abs := 0 }
    height := Smart.auto }

/-- A fully automatic box whose content returns one frame. -/
def boxAuto : BoxNode :=
  { body := contentFixed [frameA], width := Sizing.auto, height := Smart.auto }

/-- A box whose content illegally returns two frames. -/
def boxTwoFrames : BoxNode :=
  { body := contentFixed [frameA, frameB], width := Sizing.auto
    height := Smart.auto }

/-- A box whose content always fails. -/
def boxFailing : BoxNode :=
  { body := contentFail (LayoutError.user 7), width := Sizing.auto
    height := Smart.auto }

/-- A block whose content returns two frames. -/
def blockTwoFrames : BlockNode := { body := contentFixed [frameA, frameB] }

/-- A block whose content always fails. -/
def blockFailing : BlockNode := { body := contentFail (LayoutError.user 7) }

theorem boxShifted_eq (styles : Styles) (f : Frame) :
    boxShifted styles f =
      if styles.baseline.relative_to f.height ≠ 0 then
        f.set_baseline (f.baseline - styles.baseline.relative_to f.height)
      else f := rfl

theorem boxShifted_size (styles : Styles) (f : Frame) :
    (boxShifted styles f).size = f.size := by
  rw [boxShifted_eq]; split <;> rfl

theorem boxShifted_items (styles : Styles) (f : Frame) :
    (boxShifted styles f).items = f.items := by
  rw [boxShifted_eq]; split <;> rfl

theorem boxShifted_baseline (styles : Styles) (f : Frame) :
    (boxShifted styles f).baseline =
      f.baseline - styles.baseline.relative_to f.height := by
  rw [boxShifted_eq]; split
  · rfl
  · rename_i h
    rw [not_ne_iff] at h
    rw [h, sub_zero]

theorem boxShifted_baselineOpt (styles : Styles) (f : Frame) :
    (boxShifted styles f).baselineOpt =
      if styles.baseline.relative_to f.height ≠ 0 then
        some (f.baseline - styles.baseline.relative_to f.height)
      else f.baselineOpt := by
  rw [boxShifted_eq]; split <;> simp_all [Frame.set_baseline]

theorem boxPost_eq (styles : Styles) (f : Frame) :
    boxPost styles f =
      Frame.meta
        (if styles.hasDeco then
          (boxShifted styles f).fill_and_stroke styles.fill
            styles.strokeResolved styles.outset styles.radius
        else boxShifted styles f) styles := rfl

theorem boxPost_size (styles : Styles) (f : Frame) :
    (boxPost styles f).size = f.size := by
  rw [boxPost_eq]; split <;>
    simp [Frame.meta, Frame.fill_and_stroke, boxShifted_size]

theorem boxPost_baselineOpt (styles : Styles) (f : Frame) :
    (boxPost styles f).baselineOpt = (boxShifted styles f).baselineOpt := by
  rw [boxPost_eq]; split <;> simp [Frame.meta, Frame.fill_and_stroke]

theorem boxPost_baseline (styles : Styles) (f : Frame) :
    (boxPost styles f).baseline =
      f.baseline - styles.baseline.relative_to f.height := by
  rw [← boxShifted_baseline styles f]
  unfold Frame.baseline
  rw [boxPost_baselineOpt, boxPost_size, ← boxShifted_size styles f]

theorem boxPost_items (styles : Styles) (f : Frame) :
    (boxPost styles f).items =
      FrameItem.meta styles ::
        ((if styles.hasDeco then
            [FrameItem.shape styles.fill styles.strokeResolved styles.outset
              styles.radius]
          else []) ++ f.items) := by
  rw [boxPost_eq]; split <;>
    simp [Frame.meta, Frame.fill_and_stroke, boxShifted_items]

/-- C1: in every Box layout call, a `Relative(ratio, offset)` axis with a
present base size `b` resolves to exactly `ratio * b + offset`, and an `Auto`
axis resolves to absent and falls back to the region's own size for that
axis. -/
theorem box_sizing_resolution (node : BoxNode) (regions : Regions) :
    (∀ r, node.width = Sizing.rel r →
      (node.resolvedSize regions).x = r.rel * regions.base.x + r.abs) ∧
    (node.width = Sizing.auto →
      (node.resolvedSize regions).x = regions.size.x) ∧
    (∀ r, node.height = Smart.custom r →
      (node.resolvedSize regions).y = r.rel * regions.base.y + r.abs) ∧
    (node.height = Smart.auto →
      (node.resolvedSize regions).y = regions.size.y) := by
  refine ⟨fun r h => ?_, fun h => ?_, fun r h => ?_, fun h => ?_⟩ <;>
    simp [BoxNode.resolvedSize, BoxNode.sizing, Axes.zip, Axes.map,
      Axes.unwrap_or, Axes.new, Smart.map, Smart.unwrap_or, h, Rel.relative_to]

theorem box_sizing_resolution_witness :
    (boxRelHalf.resolvedSize regionsC1).x = 110 ∧
    (boxRelHalf.resolvedSize regionsC1).y = 30 := by
  have h1 := (box_sizing_resolution boxRelHalf regionsC1).1 relC1 rfl
  have h2 := (box_sizing_resolution boxRelHalf regionsC1).2.2.1
    { rel := 0, abs := 30 } rfl
  refine ⟨?_, ?_⟩
  · rw [h1]; norm_num [relC1, regionsC1, Axes.new]
  · rw [h2]; norm_num [regionsC1, Axes.new]

/-- C2: a Box whose width sizing is `Fractional(f)` for any share `f` is laid
out exactly as if the width had been `Relative` with ratio 1 and zero offset,
so the resolved width equals the full region base width. -/
theorem box_fractional_width (node : BoxNode) (f : ℚ) (styles : Styles)
    (regions : Regions) (h : node.width = Sizing.fr f) :
    node.layout styles regions =
      BoxNode.layout { node with width := Sizing.rel { rel := 1, abs := 0 } }
        styles regions ∧
    (node.resolvedSize regions).x = regions.base.x := by
  have hs : node.sizing =
      BoxNode.sizing { node with width := Sizing.rel { rel := 1, abs := 0 } } := by
    simp [BoxNode.sizing, h]
  have hpod : node.pod regions =
      BoxNode.pod { node with width := Sizing.rel { rel := 1, abs := 0 } }
        regions := by
    simp [BoxNode.pod, BoxNode.resolvedSize, hs]
  refine ⟨?_, ?_⟩
  · simp only [BoxNode.layout, BoxNode.child, hpod]
  · simp [BoxNode.resolvedSize, BoxNode.sizing, h, Axes.zip, Axes.map,
      Axes.unwrap_or, Axes.new, Smart.map, Smart.unwrap_or, Rel.relative_to]

theorem box_fractional_width_witness :
    boxFr.layout stylesPlain regions200 =
      BoxNode.layout { boxFr with width := Sizing.rel { rel := 1, abs := 0 } }
        stylesPlain regions200 ∧
    (boxFr.resolvedSize regions200).x = regions200.base.x :=
  box_fractional_width boxFr 2 stylesPlain regions200 rfl

/-- C3: the child region descriptor of every Box layout call is a single
region sized by the resolved size, whose per-axis expand flag is the caller's
expand flag or-ed with "this axis's sizing is not Auto"; in particular, with
width `Relative(1, 0)`, base width 200 and ambient expand false, the child
region width is 200 with expand true. -/
theorem box_child_region (node : BoxNode) (regions : Regions) :
    ((node.pod regions).backlog = [] ∧
     (node.pod regions).size = node.resolvedSize regions ∧
     (node.pod regions).expand.x =
       (regions.expand.x || !(decide (node.width = Sizing.auto))) ∧
     (node.pod regions).expand.y =
       (regions.expand.y || !(decide (node.height = Smart.auto)))) ∧
    ((boxFull.pod regions200).size.x = 200 ∧
     (boxFull.pod regions200).expand.x = true) := by
  refine ⟨⟨rfl, rfl, ?_, ?_⟩, ?_, ?_⟩
  · cases hw : node.width <;>
      simp [BoxNode.pod, Regions.one, BoxNode.sizing, Axes.map, Axes.or,
        Axes.not, Axes.new, Smart.is_auto, hw]
  · cases hh : node.height <;>
      simp [BoxNode.pod, Regions.one, BoxNode.sizing, Axes.map, Axes.or,
        Axes.not, Axes.new, Smart.is_auto, hh]
  · show (boxFull.pod regions200).size.x = 200
    simp [BoxNode.pod, Regions.one, BoxNode.resolvedSize, BoxNode.sizing,
      boxFull, regions200, Axes.zip, Axes.map, Axes.unwrap_or, Axes.new,
      Smart.map, Smart.unwrap_or, Rel.relative_to]
  · decide

/-- C4: a Box layout call whose content capability returns a fragment with
more than one frame is rejected as a non-recoverable internal contract
violation, and the fragment is never silently truncated to a single frame. -/
theorem box_single_region_contract (node : BoxNode) (styles : Styles)
    (regions : Regions) (frag : Fragment)
    (h : (node.child styles).layout styles (node.pod regions) =
      Except.ok frag)
    (hlen : 1 < frag.frames.length) :
    node.layout styles regions =
      Except.error (LayoutError.regionCountMismatch frag.frames.length) := by
  simp only [BoxNode.layout, h]
  obtain ⟨frames⟩ := frag
  rcases frames with _ | ⟨a, _ | ⟨b, t⟩⟩
  · simp at hlen
  · simp at hlen
  · simp [Fragment.into_frame]

theorem box_single_region_contract_witness :
    boxTwoFrames.layout stylesPlain regions200 =
      Except.error (LayoutError.regionCountMismatch 2) := by
  have h := box_single_region_contract boxTwoFrames stylesPlain regions200
    (Fragment.ofFrames [frameA, frameB]) rfl (by decide)
  exact h

/-- C5: every Block layout call passes the multi-region descriptor to the
content unmodified, and when the content returns `k` frames the Block returns
a fragment of exactly `k` frames, each frame decorated independently with the
same fill/stroke/radius/outset values. -/
theorem block_multiregion_passthrough (node : BlockNode) (styles : Styles)
    (regions : Regions) (frames : List Frame)
    (h : (node.child styles).layout styles regions =
      Except.ok (Fragment.ofFrames frames)) :
    ∃ out, node.layout styles regions = Except.ok (Fragment.ofFrames out) ∧
      out.length = frames.length ∧
      out = frames.map (fun f =>
        Frame.meta
          (if styles.hasDeco then
            f.fill_and_stroke styles.fill styles.strokeResolved styles.outset
              styles.radius
          else f) styles) := by
  refine ⟨_, ?_, ?_, rfl⟩
  · simp only [BlockNode.layout, h]
    by_cases hd : styles.hasDeco <;>
      simp [hd, Fragment.into_frames, Fragment.ofFrames, List.map_map,
        Function.comp]
  · simp

theorem block_multiregion_passthrough_witness :
    ∃ out, blockTwoFrames.layout stylesPlain regions200 =
      Except.ok (Fragment.ofFrames out) ∧
      out.length = ([frameA, frameB] : List Frame).length ∧
      out = ([frameA, frameB] : List Frame).map (fun f =>
        Frame.meta
          (if stylesPlain.hasDeco then
            f.fill_and_stroke stylesPlain.fill stylesPlain.strokeResolved
              stylesPlain.outset stylesPlain.radius
          else f) stylesPlain) :=
  block_multiregion_passthrough blockTwoFrames stylesPlain regions200
    [frameA, frameB] rfl

/-- C6: for every Box layout call with resolved baseline shift `s` (the
baseline style resolved against the laid-out frame's height), the returned
frame's baseline equals the child frame's baseline minus `s`, and when `s` is
zero the baseline is left untouched. -/
theorem box_baseline_shift (node : BoxNode) (styles : Styles)
    (regions : Regions) (f : Frame)
    (h : (node.child styles).layout styles (node.pod regions) =
      Except.ok (Fragment.frame f)) :
    ∃ g, node.layout styles regions = Except.ok (Fragment.frame g) ∧
      g.baseline = f.baseline - styles.baseline.relative_to f.height ∧
      (styles.baseline.relative_to f.height = 0 →
        g.baselineOpt = f.baselineOpt) := by
  refine ⟨boxPost styles f, ?_, boxPost_baseline styles f, ?_⟩
  · simp only [BoxNode.layout, h]
    rfl
  · intro h0
    simp [boxPost_baselineOpt, boxShifted_baselineOpt, h0]

theorem box_baseline_shift_witness :
    ∃ g, boxAuto.layout stylesShift regions200 =
      Except.ok (Fragment.frame g) ∧
      g.baseline =
        frameA.baseline - stylesShift.baseline.relative_to frameA.height ∧
      (stylesShift.baseline.relative_to frameA.height = 0 →
        g.baselineOpt = frameA.baselineOpt) :=
  box_baseline_shift boxAuto stylesShift regions200 frameA rfl

/-- C7: when the content capability's layout call fails, both Box and Block
return exactly that failure unchanged: no default output is substituted and
no decoration or metadata step runs. -/
theorem container_error_propagation (styles : Styles) (regions : Regions)
    (e : LayoutError) :
    (∀ node : BoxNode,
      (node.child styles).layout styles (node.pod regions) =
        Except.error e →
      node.layout styles regions = Except.error e) ∧
    (∀ node : BlockNode,
      (node.child styles).layout styles regions = Except.error e →
      node.layout styles regions = Except.error e) := by
  refine ⟨fun node h => ?_, fun node h => ?_⟩
  · simp only [BoxNode.layout, h]
  · simp only [BlockNode.layout, h]

theorem container_error_propagation_witness :
    boxFailing.layout stylesPlain regions200 =
      Except.error (LayoutError.user 7) ∧
    blockFailing.layout stylesPlain regions200 =
      Except.error (LayoutError.user 7) :=
  ⟨(container_error_propagation stylesPlain regions200
      (LayoutError.user 7)).1 boxFailing rfl,
   (container_error_propagation stylesPlain regions200
      (LayoutError.user 7)).2 blockFailing rfl⟩

theorem Rel.is_zero_iff (r : Rel) : r.is_zero = true ↔ r = Rel.zero := by
  obtain ⟨a, b⟩ := r
  simp [Rel.is_zero, Rel.zero, Rel.mk.injEq]

theorem boxLayout_ok (node : BoxNode) (styles : Styles) (regions : Regions)
    (f : Frame)
    (h : (node.child styles).layout styles (node.pod regions) =
      Except.ok (Fragment.frame f)) :
    node.layout styles regions =
      Except.ok (Fragment.frame (boxPost styles f)) := by
  simp only [BoxNode.layout, h]; rfl

theorem blockLayout_ok (node : BlockNode) (styles : Styles)
    (regions : Regions) (frames : List Frame)
    (h : (node.child styles).layout styles regions =
      Except.ok (Fragment.ofFrames frames)) :
    node.layout styles regions =
      Except.ok (Fragment.ofFrames
        ((if styles.hasDeco then
            frames.map (fun f =>
              f.fill_and_stroke styles.fill styles.strokeResolved
                styles.outset styles.radius)
          else frames).map (fun f => f.meta styles))) := by
  simp only [BlockNode.layout, h]; rfl

/-- C8: when the folded inset is zero on all four sides, both Box and Block
lay the content out unwrapped — the child is the original body value, not a
padding wrap — and the layout output is identical to the output produced
when no inset is set at all (the default, zero on every side). -/
theorem inset_zero_identity (styles : Styles) (regions : Regions)
    (h : styles.inset.iter.all Rel.is_zero = true) :
    (∀ node : BoxNode, node.child styles = node.body ∧
      node.layout styles regions =
        node.layout { styles with inset := Sides.splat Rel.zero } regions) ∧
    (∀ node : BlockNode, node.child styles = node.body ∧
      node.layout styles regions =
        node.layout { styles with inset := Sides.splat Rel.zero } regions) := by
  have hz : styles.inset = Sides.splat Rel.zero := by
    rcases hs : styles.inset with ⟨l, t, r, b⟩
    rw [hs] at h
    simp [Sides.iter, Rel.is_zero_iff] at h
    obtain ⟨h1, h2, h3, h4⟩ := h
    simp [Sides.splat, h1, h2, h3, h4]
  have hstyles : { styles with inset := Sides.splat Rel.zero } = styles := by
    rw [← hz]
  refine ⟨fun node => ⟨?_, ?_⟩, fun node => ⟨?_, ?_⟩⟩
  · simp [BoxNode.child, hz, Sides.iter, Sides.splat, Rel.is_zero, Rel.zero]
  · rw [hstyles]
  · simp [BlockNode.child, hz, Sides.iter, Sides.splat, Rel.is_zero, Rel.zero]
  · rw [hstyles]

theorem inset_zero_identity_witness :
    (boxAuto.child stylesPlain = boxAuto.body ∧
      boxAuto.layout stylesPlain regions200 =
        boxAuto.layout { stylesPlain with inset := Sides.splat Rel.zero }
          regions200) ∧
    (blockTwoFrames.child stylesPlain = blockTwoFrames.body ∧
      blockTwoFrames.layout stylesPlain regions200 =
        blockTwoFrames.layout
          { stylesPlain with inset := Sides.splat Rel.zero } regions200) :=
  ⟨(inset_zero_identity stylesPlain regions200 (by decide)).1 boxAuto,
   (inset_zero_identity stylesPlain regions200 (by decide)).2 blockTwoFrames⟩

/-- C9: toggling the presence of the fill and/or stroke styles of a Box
changes only the elements prepended to the returned frame: under two style
contexts that agree on the baseline shift and yield the same child frame,
the produced frames have the same size and the same baseline, and each is
the unchanged child item list behind some prepended elements. -/
theorem decoration_independence (node : BoxNode) (regions : Regions)
    (s t : Styles) (f : Frame)
    (hb : s.baseline = t.baseline)
    (hs : (node.child s).layout s (node.pod regions) =
      Except.ok (Fragment.frame f))
    (ht : (node.child t).layout t (node.pod regions) =
      Except.ok (Fragment.frame f)) :
    ∃ g₁ g₂, node.layout s regions = Except.ok (Fragment.frame g₁) ∧
      node.layout t regions = Except.ok (Fragment.frame g₂) ∧
      g₁.size = g₂.size ∧ g₁.baseline = g₂.baseline ∧
      g₁.baselineOpt = g₂.baselineOpt ∧
      (∃ d₁ d₂, g₁.items = d₁ ++ f.items ∧ g₂.items = d₂ ++ f.items) := by
  refine ⟨boxPost s f, boxPost t f, boxLayout_ok node s regions f hs,
    boxLayout_ok node t regions f ht, ?_, ?_, ?_, ?_⟩
  · rw [boxPost_size, boxPost_size]
  · rw [boxPost_baseline, boxPost_baseline, hb]
  · rw [boxPost_baselineOpt, boxPost_baselineOpt, boxShifted_baselineOpt,
      boxShifted_baselineOpt, hb]
  · refine ⟨FrameItem.meta s ::
      (if s.hasDeco then
        [FrameItem.shape s.fill s.strokeResolved s.outset s.radius]
      else []),
      FrameItem.meta t ::
      (if t.hasDeco then
        [FrameItem.shape t.fill t.strokeResolved t.outset t.radius]
      else []), ?_, ?_⟩ <;>
      rw [boxPost_items] <;> simp

theorem decoration_independence_witness :
    ∃ g₁ g₂, boxAuto.layout stylesFill regions200 =
      Except.ok (Fragment.frame g₁) ∧
      boxAuto.layout stylesPlain regions200 =
        Except.ok (Fragment.frame g₂) ∧
      g₁.size = g₂.size ∧ g₁.baseline = g₂.baseline ∧
      g₁.baselineOpt = g₂.baselineOpt ∧
      (∃ d₁ d₂, g₁.items = d₁ ++ frameA.items ∧
        g₂.items = d₂ ++ frameA.items) :=
  decoration_independence boxAuto regions200 stylesFill stylesPlain frameA
    rfl rfl rfl

/-- C10: in every Box and Block layout call, the fill/stroke decoration is
prepended exactly when the resolved fill is present or some stroke side is
present; when neither is present the result is exactly the metadata-tagged
(and, for the Box, baseline-shifted) child output, with the outset and radius
styles feeding no step of it, and in both cases the style-context metadata is
attached to every returned frame. -/
theorem decoration_guard (styles : Styles) (regions : Regions) :
    (∀ (node : BoxNode) (f : Frame),
      (node.child styles).layout styles (node.pod regions) =
        Except.ok (Fragment.frame f) →
      ∃ g, node.layout styles regions = Except.ok (Fragment.frame g) ∧
        g.items = FrameItem.meta styles ::
          ((if styles.hasDeco then
              [FrameItem.shape styles.fill styles.strokeResolved
                styles.outset styles.radius]
            else []) ++ f.items) ∧
        (styles.hasDeco = false →
          g = Frame.meta (boxShifted styles f) styles)) ∧
    (∀ (node : BlockNode) (frames : List Frame),
      (node.child styles).layout styles regions =
        Except.ok (Fragment.ofFrames frames) →
      ∃ out, node.layout styles regions =
          Except.ok (Fragment.ofFrames out) ∧
        (∀ g ∈ out, ∃ rest, g.items = FrameItem.meta styles :: rest) ∧
        (styles.hasDeco = false →
          out = frames.map (fun f => f.meta styles)) ∧
        (styles.hasDeco = true →
          out = frames.map (fun f =>
            Frame.meta
              (f.fill_and_stroke styles.fill styles.strokeResolved
                styles.outset styles.radius) styles))) := by
  refine ⟨fun node f h => ?_, fun node frames h => ?_⟩
  · refine ⟨boxPost styles f, boxLayout_ok node styles regions f h,
      boxPost_items styles f, fun hd => ?_⟩
    rw [boxPost_eq]
    simp [hd]
  · refine ⟨_, blockLayout_ok node styles regions frames h, ?_, ?_, ?_⟩
    · intro g hg
      rcases List.mem_map.mp hg with ⟨f, hf, rfl⟩
      exact ⟨f.items, rfl⟩
    · intro hd; simp [hd]
    · intro hd; simp [hd, List.map_map, Function.comp]

theorem decoration_guard_witness :
    (∃ g, boxAuto.layout stylesPlain regions200 =
      Except.ok (Fragment.frame g) ∧
      g.items = FrameItem.meta stylesPlain ::
        ((if stylesPlain.hasDeco then
            [FrameItem.shape stylesPlain.fill stylesPlain.strokeResolved
              stylesPlain.outset stylesPlain.radius]
          else []) ++ frameA.items) ∧
      (stylesPlain.hasDeco = false →
        g = Frame.meta (boxShifted stylesPlain frameA) stylesPlain)) ∧
    (∃ out, blockTwoFrames.layout stylesFill regions200 =
        Except.ok (Fragment.ofFrames out) ∧
      (∀ g ∈ out, ∃ rest, g.items = FrameItem.meta stylesFill :: rest) ∧
      (stylesFill.hasDeco = false →
        out = ([frameA, frameB] : List Frame).map
          (fun f => f.meta stylesFill)) ∧
      (stylesFill.hasDeco = true →
        out = ([frameA, frameB] : List Frame).map (fun f =>
          Frame.meta
            (f.fill_and_stroke stylesFill.fill stylesFill.strokeResolved
              stylesFill.outset stylesFill.radius) stylesFill))) :=
  ⟨(decoration_guard stylesPlain regions200).1 boxAuto frameA rfl,
   (decoration_guard stylesFill regions200).2 blockTwoFrames
     [frameA, frameB] rfl⟩

end Container
